import Mathlib

/-!
Verification of the observable behavior of `serve.py`, a 24-line launcher
that changes into the `public` directory, binds a `socketserver.TCPServer`
on port 8000 with `http.server.SimpleHTTPRequestHandler`, prints two status
lines, opens a web browser on the root URL, and runs `serve_forever` under
`try/except KeyboardInterrupt` inside a `with` block.

The script is embedded as a total function `run` from a run environment
(does `public` exist, is the port free, value of the BROWSER environment
variable, does the browser launch succeed, and where, if anywhere, a
keyboard interrupt is delivered) to a finite trace of observable events
together with a process outcome.
-/

namespace ServePy

/-- The fixed TCP port, source line 10: `PORT = 8000`. -/
def PORT : Nat := 8000

/-- The fixed relative directory, source line 8: `os.chdir('public')`. -/
def publicDir : String := "public"

/-- The root URL used in source lines 15 and 19: `http://localhost:{PORT}`. -/
def rootUrl : String := "http://localhost:" ++ toString PORT

/-- Text written by the first startup print, source line 15,
including the trailing newline added by `print`. -/
def startupLine1 : String := "Serving at " ++ rootUrl ++ "\n"

/-- Text written by the second startup print, source line 16. -/
def startupLine2 : String := "Press Ctrl+C to stop the server\n"

/-- Text written by the shutdown print, source line 24:
`print("\nServer stopped.")` writes a leading newline, the message, and the
trailing newline added by `print`. -/
def shutdownText : String := "\nServer stopped.\n"

/-- Observable events of a run of serve.py. `browserOpen` is the script's
call `webbrowser.open(url)` with its argument; `execBrowser` is the external
browser command the library then launches, with its success flag.
`enterLoop` marks control entering `serve_forever` (source line 22);
`closeSocket` is the `with` block closing the listening socket on exit. -/
inductive Event where
  | chdir (path : String)
  | bindSocket (host : String) (port : Nat)
  | stdout (text : String)
  | browserOpen (url : String)
  | execBrowser (cmd : String) (ok : Bool)
  | enterLoop
  | acceptRequest (i : Nat)
  | finishRequest (i : Nat)
  | closeSocket
  deriving DecidableEq, Repr

/-- The unhandled Python exceptions a run of serve.py can die with. -/
inductive PyError where
  | fileNotFound
  | addrInUse
  | keyboardInterrupt
  deriving DecidableEq, Repr

/-- How a run of serve.py ends: normal process exit with a code, death by an
unhandled exception, or never returning from the serve loop. -/
inductive Outcome where
  | exit (code : Nat)
  | fatal (e : PyError)
  | diverges
  deriving DecidableEq, Repr

/-- Where, if anywhere, a keyboard interrupt is delivered during the run.
The four `before…` points lie after the socket bind (inside the `with`
block, source line 14) but before `serve_forever` is entered (line 22);
`duringServe n` means the interrupt arrives inside `serve_forever` after
`n` requests have been fully served. -/
inductive InterruptPoint where
  | never
  | beforePrint1
  | beforePrint2
  | beforeBrowser
  | beforeServe
  | duringServe (n : Nat)
  deriving DecidableEq, Repr

/-- The run environment: filesystem, network, process environment and
interrupt timing facts a run of serve.py depends on. -/
structure Env where
  publicExists : Bool
  portFree : Bool
  browserEnv : Option String
  browserOk : Bool
  interrupt : InterruptPoint
  deriving DecidableEq, Repr

/-- Model of the external browser command launched by the CPython stdlib
call `webbrowser.open(url)` (source line 19): per the stdlib documentation,
if the BROWSER environment variable is set it takes priority and names the
browser to launch; otherwise a platform default browser is used. -/
def browserCommand (browserEnv : Option String) (url : String) : String :=
  match browserEnv with
  | some b => b ++ " " ++ url
  | none => "platform-default-browser " ++ url

/-- The request events produced by `serve_forever` (source line 22) with the
synchronous `socketserver.TCPServer` class: request `i` is accepted and
fully finished before request `i + 1` is accepted. -/
def serveLoopTrace (n : Nat) : List Event :=
  (List.range n).flatMap (fun i => [Event.acceptRequest i, Event.finishRequest i])

/-- One full run of serve.py: the trace of observable events and the process
outcome, as a function of the run environment. Mirrors the source line by
line: `os.chdir('public')` (line 8), the `TCPServer` bind on `("", PORT)`
(line 14), the two prints (lines 15-16), `webbrowser.open` (line 19), and
`serve_forever` under `try/except KeyboardInterrupt` (lines 21-24), with
the `with` block closing the socket whenever control leaves it, including
by an unwinding exception. -/
def run (env : Env) : List Event × Outcome :=
  if env.publicExists = false then
    ([], Outcome.fatal PyError.fileNotFound)
  else if env.portFree = false then
    ([Event.chdir publicDir], Outcome.fatal PyError.addrInUse)
  else
    match env.interrupt with
    | InterruptPoint.beforePrint1 =>
        ([Event.chdir publicDir, Event.bindSocket "" PORT,
          Event.closeSocket],
         Outcome.fatal PyError.keyboardInterrupt)
    | InterruptPoint.beforePrint2 =>
        ([Event.chdir publicDir, Event.bindSocket "" PORT,
          Event.stdout startupLine1,
          Event.closeSocket],
         Outcome.fatal PyError.keyboardInterrupt)
    | InterruptPoint.beforeBrowser =>
        ([Event.chdir publicDir, Event.bindSocket "" PORT,
          Event.stdout startupLine1, Event.stdout startupLine2,
          Event.closeSocket],
         Outcome.fatal PyError.keyboardInterrupt)
    | InterruptPoint.beforeServe =>
        ([Event.chdir publicDir, Event.bindSocket "" PORT,
          Event.stdout startupLine1, Event.stdout startupLine2,
          Event.browserOpen rootUrl,
          Event.execBrowser (browserCommand env.browserEnv rootUrl) env.browserOk,
          Event.closeSocket],
         Outcome.fatal PyError.keyboardInterrupt)
    | InterruptPoint.never =>
        ([Event.chdir publicDir, Event.bindSocket "" PORT,
          Event.stdout startupLine1, Event.stdout startupLine2,
          Event.browserOpen rootUrl,
          Event.execBrowser (browserCommand env.browserEnv rootUrl) env.browserOk,
          Event.enterLoop],
         Outcome.diverges)
    | InterruptPoint.duringServe n =>
        ([Event.chdir publicDir, Event.bindSocket "" PORT,
          Event.stdout startupLine1, Event.stdout startupLine2,
          Event.browserOpen rootUrl,
          Event.execBrowser (browserCommand env.browserEnv rootUrl) env.browserOk,
          Event.enterLoop]
           ++ serveLoopTrace n
           ++ [Event.stdout shutdownText, Event.closeSocket],
         Outcome.exit 0)

/-- The texts written to standard output along a trace, in order. -/
def stdoutOf (t : List Event) : List String :=
  t.filterMap (fun e =>
    match e with
    | Event.stdout s => some s
    | _ => none)

/-- The URLs passed to `webbrowser.open` along a trace, in order. -/
def browserOpensOf (t : List Event) : List String :=
  t.filterMap (fun e =>
    match e with
    | Event.browserOpen u => some u
    | _ => none)

/-- Whether an event is the marker for entering `serve_forever`. -/
def isEnterLoop : Event → Bool
  | Event.enterLoop => true
  | _ => false

/-- The part of a trace strictly before the serve loop is entered. -/
def preLoop (t : List Event) : List Event :=
  t.takeWhile (fun e => !isEnterLoop e)

/-- The part of a trace from the serve loop entry on. -/
def postLoop (t : List Event) : List Event :=
  t.dropWhile (fun e => !isEnterLoop e)

/-- Whether an event is a library-internal browser launch (as opposed to a
script-level effect). -/
def isExecBrowser : Event → Bool
  | Event.execBrowser _ _ => true
  | _ => false

/-- The script-level events of a trace: everything except the
library-internal external browser command launch. -/
def scriptEvents (t : List Event) : List Event :=
  t.filter (fun e => !isExecBrowser e)

/-- Number of lines in a piece of text written to standard output, counted
as the number of newline characters. -/
def lineCount (s : String) : Nat := s.toList.count (Char.ofNat 10)

/-- Contribution of an event to the number of in-flight HTTP requests. -/
def reqDelta : Event → Int
  | Event.acceptRequest _ => 1
  | Event.finishRequest _ => -1
  | _ => 0

/-- Net change of in-flight requests over a trace. -/
def reqSum (t : List Event) : Int := (t.map reqDelta).sum

/-- Checks, scanning a trace left to right from `c` requests in flight,
that the number of in-flight requests always stays between 0 and 1:
no two HTTP requests are ever handled concurrently. -/
def seqOk : Int → List Event → Bool
  | _, [] => true
  | c, e :: t =>
      decide (0 ≤ c + reqDelta e) && decide (c + reqDelta e ≤ 1)
        && seqOk (c + reqDelta e) t

/-- Whether an interrupt point lets the run reach the serve loop. -/
def reachesLoop : InterruptPoint → Bool
  | InterruptPoint.never => true
  | InterruptPoint.duringServe _ => true
  | _ => false

/-- Whether an interrupt point is after the bind but before the serve loop. -/
def preLoopInterrupt : InterruptPoint → Bool
  | InterruptPoint.beforePrint1 => true
  | InterruptPoint.beforePrint2 => true
  | InterruptPoint.beforeBrowser => true
  | InterruptPoint.beforeServe => true
  | _ => false

/-- A baseline environment with a successful startup, no BROWSER variable,
a working browser, and a chosen interrupt point. -/
def okEnv (ip : InterruptPoint) : Env :=
  { publicExists := true, portFree := true, browserEnv := none,
    browserOk := true, interrupt := ip }

/-- Splits a character list at newline characters. -/
def splitNl : List Char → List (List Char)
  | [] => [[]]
  | c :: t =>
      if c = Char.ofNat 10 then [] :: splitNl t
      else
        match splitNl t with
        | [] => [[c]]
        | l :: ls => (c :: l) :: ls

/-- The newline-separated lines of a piece of text: a text consisting of
exactly one newline-terminated line yields its content followed by one
empty remainder. -/
def linesOf (s : String) : List String := (splitNl s.toList).map String.mk

/-- The concrete environment of the second run in the environment-dependence
counterexample: identical to `okEnv (duringServe 0)` except that the
BROWSER environment variable is set. -/
def envWithBrowserVar : Env :=
  { okEnv (InterruptPoint.duringServe 0) with browserEnv := some "lynx" }

section Lemmas

theorem serveLoopTrace_succ (n : Nat) :
    serveLoopTrace (n + 1)
      = serveLoopTrace n ++ [Event.acceptRequest n, Event.finishRequest n] := by
  simp [serveLoopTrace, List.range_succ]

theorem stdoutOf_append (a b : List Event) :
    stdoutOf (a ++ b) = stdoutOf a ++ stdoutOf b := by
  simp [stdoutOf]

theorem stdoutOf_serveLoopTrace (n : Nat) : stdoutOf (serveLoopTrace n) = [] := by
  induction n with
  | zero => rfl
  | succ k ih => rw [serveLoopTrace_succ, stdoutOf_append, ih]; rfl

theorem reqSum_append (a b : List Event) :
    reqSum (a ++ b) = reqSum a + reqSum b := by
  simp [reqSum]

theorem reqSum_serveLoopTrace (n : Nat) : reqSum (serveLoopTrace n) = 0 := by
  induction n with
  | zero => rfl
  | succ k ih => rw [serveLoopTrace_succ, reqSum_append, ih]; rfl

theorem seqOk_append (c : Int) (a b : List Event) :
    seqOk c (a ++ b) = (seqOk c a && seqOk (c + reqSum a) b) := by
  induction a generalizing c with
  | nil => simp [seqOk, reqSum]
  | cons e t ih =>
      simp only [List.cons_append, seqOk, List.append_eq, ih, reqSum, List.map_cons,
        List.sum_cons, Bool.and_assoc, ← add_assoc]

theorem seqOk_serveLoopTrace (n : Nat) : seqOk 0 (serveLoopTrace n) = true := by
  induction n with
  | zero => rfl
  | succ k ih =>
      rw [serveLoopTrace_succ, seqOk_append, ih, reqSum_serveLoopTrace]
      simp [seqOk, reqDelta]

end Lemmas

/-- C1: in every run where the working-directory change to `public` fails,
the process dies with an unhandled filesystem error and an empty trace, so
no TCP socket is ever bound; and in every run whose trace contains the
socket bind, the trace starts with the chdir, i.e. the chdir is sequenced
strictly before the server construction. -/
theorem chdir_precedes_server_construction (env : Env) :
    (env.publicExists = false →
      run env = ([], Outcome.fatal PyError.fileNotFound))
    ∧ (Event.bindSocket "" PORT ∈ (run env).1 →
        (run env).1.head? = some (Event.chdir publicDir)) := by
  rcases env with ⟨pe, pf, be, bo, ip⟩
  constructor
  · intro h
    subst h
    rfl
  · intro hmem
    cases pe <;> cases pf <;> cases ip <;> simp_all [run]

/-- Witness for C1 at concrete environments: a run with `public` missing,
and a run whose trace contains the bind. -/
theorem chdir_precedes_server_construction_witness :
    run { okEnv InterruptPoint.never with publicExists := false }
        = ([], Outcome.fatal PyError.fileNotFound)
    ∧ (run (okEnv InterruptPoint.never)).1.head?
        = some (Event.chdir publicDir) :=
  ⟨(chdir_precedes_server_construction _).1 rfl,
   (chdir_precedes_server_construction (okEnv InterruptPoint.never)).2 (by decide)⟩

/-- C3: in every run where `public` exists but binding port 8000 fails
because the port is in use, the run dies with an unhandled bind error and
its whole trace is the single chdir event: no retry, no recovery, no
further observable step. -/
theorem port_in_use_fatal (env : Env) (h1 : env.publicExists = true)
    (h2 : env.portFree = false) :
    run env = ([Event.chdir publicDir], Outcome.fatal PyError.addrInUse) := by
  rcases env with ⟨pe, pf, be, bo, ip⟩
  subst h1 h2
  rfl

/-- Witness for C3 at a concrete environment. -/
theorem port_in_use_fatal_witness :
    ({ okEnv InterruptPoint.never with portFree := false } : Env).publicExists = true
    ∧ run { okEnv InterruptPoint.never with portFree := false }
        = ([Event.chdir publicDir], Outcome.fatal PyError.addrInUse) :=
  ⟨rfl, port_in_use_fatal _ rfl rfl⟩

/-- C9: if the working-directory change fails, nothing has been written to
standard output, no browser open has been attempted, and in fact the trace
of observable events is empty: the fatal chdir error precedes all prints
and the webbrowser call. -/
theorem chdir_failure_no_side_effects (env : Env)
    (h : env.publicExists = false) :
    stdoutOf (run env).1 = []
    ∧ browserOpensOf (run env).1 = []
    ∧ (run env).1 = []
    ∧ (run env).2 = Outcome.fatal PyError.fileNotFound := by
  rcases env with ⟨pe, pf, be, bo, ip⟩
  subst h
  exact ⟨rfl, rfl, rfl, rfl⟩

/-- Witness for C9 at a concrete environment. -/
theorem chdir_failure_no_side_effects_witness :
    ({ okEnv InterruptPoint.never with publicExists := false } : Env).publicExists
        = false
    ∧ stdoutOf (run { okEnv InterruptPoint.never with publicExists := false }).1 = []
    ∧ browserOpensOf
        (run { okEnv InterruptPoint.never with publicExists := false }).1 = []
    ∧ (run { okEnv InterruptPoint.never with publicExists := false }).1 = []
    ∧ (run { okEnv InterruptPoint.never with publicExists := false }).2
        = Outcome.fatal PyError.fileNotFound := by
  refine ⟨rfl, ?_⟩
  exact chdir_failure_no_side_effects _ rfl

/-- C2: every run that reaches the serve loop and then receives a keyboard
interrupt prints the termination text and closes the listening socket as
its last two observable events, and exits with code 0: the interrupt is
caught and does not propagate. -/
theorem keyboard_interrupt_graceful (env : Env) (n : Nat)
    (h1 : env.publicExists = true) (h2 : env.portFree = true)
    (h3 : env.interrupt = InterruptPoint.duringServe n) :
    (run env).2 = Outcome.exit 0
    ∧ ∃ t, (run env).1 = t ++ [Event.stdout shutdownText, Event.closeSocket] := by
  constructor
  · simp [run, h1, h2, h3]
  · refine ⟨[Event.chdir publicDir, Event.bindSocket "" PORT,
      Event.stdout startupLine1, Event.stdout startupLine2,
      Event.browserOpen rootUrl,
      Event.execBrowser (browserCommand env.browserEnv rootUrl) env.browserOk,
      Event.enterLoop] ++ serveLoopTrace n, ?_⟩
    simp [run, h1, h2, h3]

/-- Witness for C2 at a concrete environment interrupted after one request. -/
theorem keyboard_interrupt_graceful_witness :
    (okEnv (InterruptPoint.duringServe 1)).publicExists = true
    ∧ (okEnv (InterruptPoint.duringServe 1)).portFree = true
    ∧ (okEnv (InterruptPoint.duringServe 1)).interrupt
        = InterruptPoint.duringServe 1
    ∧ ((run (okEnv (InterruptPoint.duringServe 1))).2 = Outcome.exit 0
       ∧ ∃ t, (run (okEnv (InterruptPoint.duringServe 1))).1
           = t ++ [Event.stdout shutdownText, Event.closeSocket]) :=
  ⟨rfl, rfl, rfl, keyboard_interrupt_graceful _ 1 rfl rfl rfl⟩

/-- C4: every run with a successful startup that reaches the serve loop
writes exactly two texts to standard output before the loop is entered:
first the served URL, then the stop instruction, each a single
newline-terminated line. -/
theorem startup_status_lines (env : Env) (h1 : env.publicExists = true)
    (h2 : env.portFree = true) (h3 : reachesLoop env.interrupt = true) :
    stdoutOf (preLoop (run env).1) = [startupLine1, startupLine2]
    ∧ startupLine1 = "Serving at http://localhost:8000\n"
    ∧ startupLine2 = "Press Ctrl+C to stop the server\n"
    ∧ lineCount startupLine1 = 1
    ∧ lineCount startupLine2 = 1 := by
  refine ⟨?_, by decide, by decide, by decide, by decide⟩
  rcases hip : env.interrupt with _ | _ | _ | _ | _ | n <;>
    simp [reachesLoop, hip] at h3 <;>
    simp [run, h1, h2, hip, preLoop, isEnterLoop, stdoutOf]

/-- Witness for C4 at a concrete environment that is never interrupted. -/
theorem startup_status_lines_witness :
    (okEnv InterruptPoint.never).publicExists = true
    ∧ (okEnv InterruptPoint.never).portFree = true
    ∧ reachesLoop (okEnv InterruptPoint.never).interrupt = true
    ∧ stdoutOf (preLoop (run (okEnv InterruptPoint.never)).1)
        = [startupLine1, startupLine2] :=
  ⟨rfl, rfl, rfl, (startup_status_lines (okEnv InterruptPoint.never) rfl rfl rfl).1⟩

/-- C5: in every run with a successful startup that reaches the serve loop,
the pre-loop trace is exactly: chdir, bind, the two status prints, one
`webbrowser.open` call on the root URL, and the resulting browser launch —
so the browser is opened exactly once, after the two status lines and
before the loop; and the success flag of the browser launch has no effect
on the run's outcome. -/
theorem browser_opened_once (env : Env) (h1 : env.publicExists = true)
    (h2 : env.portFree = true) (h3 : reachesLoop env.interrupt = true) :
    preLoop (run env).1
      = [Event.chdir publicDir, Event.bindSocket "" PORT,
         Event.stdout startupLine1, Event.stdout startupLine2,
         Event.browserOpen rootUrl,
         Event.execBrowser (browserCommand env.browserEnv rootUrl) env.browserOk]
    ∧ browserOpensOf (preLoop (run env).1) = [rootUrl]
    ∧ (∀ b : Bool, (run { env with browserOk := b }).2 = (run env).2) := by
  refine ⟨?_, ?_, ?_⟩
  · rcases hip : env.interrupt with _ | _ | _ | _ | _ | n <;>
      simp [reachesLoop, hip] at h3 <;>
      simp [run, h1, h2, hip, preLoop, isEnterLoop]
  · rcases hip : env.interrupt with _ | _ | _ | _ | _ | n <;>
      simp [reachesLoop, hip] at h3 <;>
      simp [run, h1, h2, hip, preLoop, isEnterLoop, browserOpensOf]
  · intro b
    rcases hip : env.interrupt with _ | _ | _ | _ | _ | n <;>
      simp [run, h1, h2, hip]

/-- Witness for C5 at a concrete environment that is never interrupted. -/
theorem browser_opened_once_witness :
    (okEnv InterruptPoint.never).publicExists = true
    ∧ (okEnv InterruptPoint.never).portFree = true
    ∧ reachesLoop (okEnv InterruptPoint.never).interrupt = true
    ∧ browserOpensOf (preLoop (run (okEnv InterruptPoint.never)).1) = [rootUrl] :=
  ⟨rfl, rfl, rfl, (browser_opened_once (okEnv InterruptPoint.never) rfl rfl rfl).2.1⟩

/-- C8: after a successful startup the run diverges exactly when no
interrupt ever arrives (the serve loop exits only on an interrupt); along
every trace the number of in-flight HTTP requests never exceeds one, so
requests are accepted and served strictly one at a time; and every run
that is not interrupted before `serve_forever` actually enters the loop. -/
theorem serve_loop_sequential (env : Env) (h1 : env.publicExists = true)
    (h2 : env.portFree = true) :
    ((run env).2 = Outcome.diverges ↔ env.interrupt = InterruptPoint.never)
    ∧ seqOk 0 (run env).1 = true
    ∧ (reachesLoop env.interrupt = true → Event.enterLoop ∈ (run env).1) := by
  refine ⟨?_, ?_, ?_⟩
  · rcases hip : env.interrupt with _ | _ | _ | _ | _ | n <;>
      simp [run, h1, h2, hip]
  · rcases hip : env.interrupt with _ | _ | _ | _ | _ | n <;>
      simp only [run, h1, h2, hip, Bool.true_eq_false, if_false, reduceIte] <;>
      try simp [seqOk, reqDelta]
    rw [seqOk_append, seqOk_serveLoopTrace, reqSum_serveLoopTrace]
    simp [seqOk, reqDelta]
  · intro h3
    rcases hip : env.interrupt with _ | _ | _ | _ | _ | n <;>
      simp [reachesLoop, hip] at h3 <;>
      simp [run, h1, h2, hip]

/-- Witness for C8 at a concrete environment interrupted after one request. -/
theorem serve_loop_sequential_witness :
    (okEnv (InterruptPoint.duringServe 1)).publicExists = true
    ∧ (okEnv (InterruptPoint.duringServe 1)).portFree = true
    ∧ (((run (okEnv (InterruptPoint.duringServe 1))).2 = Outcome.diverges
          ↔ (okEnv (InterruptPoint.duringServe 1)).interrupt
              = InterruptPoint.never)
       ∧ seqOk 0 (run (okEnv (InterruptPoint.duringServe 1))).1 = true
       ∧ (reachesLoop (okEnv (InterruptPoint.duringServe 1)).interrupt = true →
            Event.enterLoop ∈ (run (okEnv (InterruptPoint.duringServe 1))).1)) :=
  ⟨rfl, rfl, serve_loop_sequential (okEnv (InterruptPoint.duringServe 1)) rfl rfl⟩

/-- C10: a keyboard interrupt delivered after the socket is bound but
before `serve_forever` is entered is not caught: the run dies with an
unhandled keyboard-interrupt error, the shutdown message is never written,
the serve loop is never entered, and yet the `with` block still closes the
listening socket as the last observable event. -/
theorem early_interrupt_unhandled (env : Env) (h1 : env.publicExists = true)
    (h2 : env.portFree = true) (h3 : preLoopInterrupt env.interrupt = true) :
    (run env).2 = Outcome.fatal PyError.keyboardInterrupt
    ∧ shutdownText ∉ stdoutOf (run env).1
    ∧ Event.enterLoop ∉ (run env).1
    ∧ (run env).1.getLast? = some Event.closeSocket := by
  rcases env with ⟨pe, pf, be, bo, ip⟩
  cases pe with
  | false => simp at h1
  | true =>
  cases pf with
  | false => simp at h2
  | true =>
  cases ip with
  | never => simp [preLoopInterrupt] at h3
  | duringServe n => simp [preLoopInterrupt] at h3
  | beforePrint1 =>
      refine ⟨rfl, ?_, ?_, rfl⟩
      · show shutdownText ∉ ([] : List String)
        decide
      · show Event.enterLoop ∉ [Event.chdir publicDir, Event.bindSocket "" PORT,
          Event.closeSocket]
        decide
  | beforePrint2 =>
      refine ⟨rfl, ?_, ?_, rfl⟩
      · show shutdownText ∉ [startupLine1]
        decide
      · show Event.enterLoop ∉ [Event.chdir publicDir, Event.bindSocket "" PORT,
          Event.stdout startupLine1, Event.closeSocket]
        decide
  | beforeBrowser =>
      refine ⟨rfl, ?_, ?_, rfl⟩
      · show shutdownText ∉ [startupLine1, startupLine2]
        decide
      · show Event.enterLoop ∉ [Event.chdir publicDir, Event.bindSocket "" PORT,
          Event.stdout startupLine1, Event.stdout startupLine2, Event.closeSocket]
        decide
  | beforeServe =>
      refine ⟨rfl, ?_, ?_, rfl⟩
      · show shutdownText ∉ [startupLine1, startupLine2]
        decide
      · simp [run]

/-- Witness for C10 at a concrete environment interrupted between the
browser call and the serve loop. -/
theorem early_interrupt_unhandled_witness :
    (okEnv InterruptPoint.beforeServe).publicExists = true
    ∧ (okEnv InterruptPoint.beforeServe).portFree = true
    ∧ preLoopInterrupt (okEnv InterruptPoint.beforeServe).interrupt = true
    ∧ (run (okEnv InterruptPoint.beforeServe)).2
        = Outcome.fatal PyError.keyboardInterrupt :=
  ⟨rfl, rfl, rfl,
   (early_interrupt_unhandled (okEnv InterruptPoint.beforeServe) rfl rfl rfl).1⟩

/-- C6 counterexample: in the concrete interrupted run the only text
written to standard output at shutdown is `"\nServer stopped.\n"`, which is
not exactly one line: it contains two newline characters and splits into an
empty first line followed by the message line. -/
theorem shutdown_output_not_one_line_cex :
    stdoutOf (postLoop (run (okEnv (InterruptPoint.duringServe 0))).1)
      = [shutdownText]
    ∧ ¬ lineCount shutdownText = 1
    ∧ linesOf shutdownText = ["", "Server stopped.", ""] := by decide

/-- C6 amended: in every run that shuts down via keyboard interrupt, the
text written to standard output from the serve loop on is the single print
of the shutdown message, whose text is a leading newline followed by one
message line: two lines, the first empty. -/
theorem shutdown_output_amended (env : Env) (n : Nat)
    (h1 : env.publicExists = true) (h2 : env.portFree = true)
    (h3 : env.interrupt = InterruptPoint.duringServe n) :
    stdoutOf (postLoop (run env).1) = [shutdownText]
    ∧ shutdownText = "\nServer stopped.\n"
    ∧ lineCount shutdownText = 2
    ∧ linesOf shutdownText = ["", "Server stopped.", ""] := by
  refine ⟨?_, rfl, by decide, by decide⟩
  have htrace : postLoop (run env).1
      = Event.enterLoop
          :: (serveLoopTrace n ++ [Event.stdout shutdownText, Event.closeSocket]) := by
    simp [run, h1, h2, h3, postLoop, isEnterLoop]
  rw [htrace]
  show stdoutOf (serveLoopTrace n ++ [Event.stdout shutdownText, Event.closeSocket])
      = [shutdownText]
  rw [stdoutOf_append, stdoutOf_serveLoopTrace]
  rfl

/-- Witness for the amended C6 at a concrete environment interrupted after
two requests. -/
theorem shutdown_output_amended_witness :
    (okEnv (InterruptPoint.duringServe 2)).publicExists = true
    ∧ (okEnv (InterruptPoint.duringServe 2)).portFree = true
    ∧ (okEnv (InterruptPoint.duringServe 2)).interrupt
        = InterruptPoint.duringServe 2
    ∧ stdoutOf (postLoop (run (okEnv (InterruptPoint.duringServe 2))).1)
        = [shutdownText] :=
  ⟨rfl, rfl, rfl,
   (shutdown_output_amended (okEnv (InterruptPoint.duringServe 2)) 2 rfl rfl rfl).1⟩

/-- C7 counterexample: two runs whose environments agree on everything
except that one sets the BROWSER environment variable produce different
observable behavior — the external browser command launched by the
`webbrowser.open` call differs — so the program's observable behavior is
not identical across process environments. -/
theorem browser_env_dependence_cex :
    envWithBrowserVar.publicExists
        = (okEnv (InterruptPoint.duringServe 0)).publicExists
    ∧ envWithBrowserVar.portFree = (okEnv (InterruptPoint.duringServe 0)).portFree
    ∧ envWithBrowserVar.browserOk
        = (okEnv (InterruptPoint.duringServe 0)).browserOk
    ∧ envWithBrowserVar.interrupt
        = (okEnv (InterruptPoint.duringServe 0)).interrupt
    ∧ ¬ run envWithBrowserVar = run (okEnv (InterruptPoint.duringServe 0)) := by
  decide

/-- C7 amended: the script itself consumes no environment variables — for
any two runs differing only in the BROWSER environment variable, all
script-level observable events (chdir, bind, prints, the URL passed to the
browser-open call, loop and shutdown events) and the process outcome are
identical; only the external browser command launched by the underlying
library call may differ. -/
theorem script_ignores_environment (env : Env) (b1 b2 : Option String) :
    scriptEvents (run { env with browserEnv := b1 }).1
      = scriptEvents (run { env with browserEnv := b2 }).1
    ∧ (run { env with browserEnv := b1 }).2
        = (run { env with browserEnv := b2 }).2 := by
  rcases env with ⟨pe, pf, be, bo, ip⟩
  cases pe <;> cases pf <;> cases ip <;>
    simp [run, scriptEvents, isExecBrowser, List.filter_append, List.filter_cons]

end ServePy
